import Mathlib

/-!
Verification development for the chicago-crime-classifier repository.

The development shallowly embeds the feature-engineering and prediction path of
the repository: `prepare_features` from `src/chicago_crimes/data_loader.py`,
the prediction pipeline `process_predictions` and the storage-event handler
`handle_s3_event` from `aws/lambda/ml-predictor.py`, the risk-tier thresholds
from `lambda/config.py`, and the risk bucketing of the local web server
`src/predict-api.py`.

Dataframes are modelled column-wise, as pandas holds them: a list of named
columns, each a list of cells.  A cell is a string, an integer, a timestamp or
the missing value (NaN/NaT).  Machine floats only occur as predicted
probabilities, which are modelled as rationals.
-/

namespace ChicagoCrimes

/-- Calendar timestamp, as produced by `pandas.to_datetime`.  Only the fields
the feature pipeline reads (`year`/`month`/`day` for weekday and quarter,
`hour`) are carried. -/
structure Timestamp where
  year : Nat
  month : Nat
  day : Nat
  hour : Nat
deriving DecidableEq, Repr

/-- Day of week of the date, Monday = 0 through Sunday = 6, the convention of
pandas `Series.dt.weekday`.  Computed with Sakamoto's method (which yields
Sunday = 0) and shifted. -/
def Timestamp.weekday (t : Timestamp) : Nat :=
  let y := if t.month < 3 then t.year - 1 else t.year
  let offs : List Nat := [0, 3, 2, 5, 0, 3, 5, 1, 4, 6, 2, 4]
  let dowSunday0 := (y + y / 4 - y / 100 + y / 400 + offs.getD (t.month - 1) 0 + t.day) % 7
  (dowSunday0 + 6) % 7

/-- Quarter of the year of the date (1–4), the convention of pandas
`Series.dt.quarter`. -/
def Timestamp.quarter (t : Timestamp) : Nat :=
  (t.month + 2) / 3

/-- One cell of a dataframe: a string, an integer, a datetime value, or the
missing value (pandas NaN/NaT). -/
inductive CellValue where
  | str (s : String)
  | int (n : Int)
  | ts (t : Timestamp)
  | na
deriving DecidableEq, Repr

/-- A pandas dataframe: named columns in order, each column a list of cells. -/
structure DataFrame where
  cols : List (String × List CellValue)
deriving DecidableEq, Repr

/-- Lookup of a column by name (first match, as pandas column labels are
unique). -/
def getColList : List (String × List CellValue) → String → Option (List CellValue)
  | [], _ => none
  | c :: rest, n => if c.1 = n then some c.2 else getColList rest n

/-- Column assignment `df[n] = cells`: replaces the column in place when the
name exists, otherwise appends it at the end, as pandas does. -/
def setColList : List (String × List CellValue) → String → List CellValue →
    List (String × List CellValue)
  | [], n, cs => [(n, cs)]
  | c :: rest, n, cs => if c.1 = n then (n, cs) :: rest else c :: setColList rest n cs

def DataFrame.getCol (df : DataFrame) (n : String) : Option (List CellValue) :=
  getColList df.cols n

def DataFrame.setCol (df : DataFrame) (n : String) (cs : List CellValue) : DataFrame :=
  ⟨setColList df.cols n cs⟩

/-- Column names of the frame, in order (`df.columns`). -/
def DataFrame.colNames (df : DataFrame) : List String :=
  df.cols.map Prod.fst

/-- Embeds `df.drop(columns=ns)` at a point where all the dropped names are
known to be present. -/
def DataFrame.dropCols (df : DataFrame) (ns : List String) : DataFrame :=
  ⟨df.cols.filter (fun c => c.1 ∉ ns)⟩

/-- Lookup raising the pandas `KeyError` when the column is absent, embedding
a `df[n]` read. -/
def getColE (df : DataFrame) (n : String) : Except String (List CellValue) :=
  match df.getCol n with
  | some cs => .ok cs
  | none => .error s!"KeyError: {n}"

theorem getColList_setColList (l : List (String × List CellValue)) (n n' : String)
    (cs : List CellValue) :
    getColList (setColList l n cs) n' = if n' = n then some cs else getColList l n' := by
  induction l with
  | nil =>
    by_cases h : n' = n
    · subst h
      simp [setColList, getColList]
    · simp only [setColList, getColList]
      rw [if_neg (Ne.symm h), if_neg h]
  | cons c rest ih =>
    by_cases hc : c.1 = n
    · subst hc
      simp only [setColList, if_pos rfl, getColList]
      by_cases h : n' = c.1
      · subst h
        simp
      · simp [Ne.symm h, h]
    · simp only [setColList, if_neg hc, getColList, ih]
      by_cases h : c.1 = n'
      · subst h
        simp [hc]
      · simp [h]

theorem getColList_eq_none (l : List (String × List CellValue)) (n : String) :
    getColList l n = none ↔ n ∉ l.map Prod.fst := by
  induction l with
  | nil => simp [getColList]
  | cons c rest ih =>
    by_cases h : c.1 = n
    · subst h
      simp [getColList]
    · simp [getColList, h, ih, Ne.symm h]

theorem colNames_setColList (l : List (String × List CellValue)) (n : String)
    (cs : List CellValue) (h : n ∉ l.map Prod.fst) :
    (setColList l n cs).map Prod.fst = l.map Prod.fst ++ [n] := by
  induction l with
  | nil => simp [setColList]
  | cons c rest ih =>
    rw [List.map_cons] at h
    have h1 : c.1 ≠ n := fun h' => h (by simp [h'])
    have h2 : n ∉ rest.map Prod.fst := fun h' => h (by simp [h'])
    simp [setColList, h1, ih h2]

theorem getColList_dropFilter (l : List (String × List CellValue)) (ns : List String)
    (n : String) :
    getColList (l.filter (fun c => c.1 ∉ ns)) n =
      if n ∈ ns then none else getColList l n := by
  induction l with
  | nil => simp [getColList]
  | cons c rest ih =>
    rw [List.filter_cons]
    by_cases hm : c.1 ∈ ns
    · rw [if_neg (by simp [hm]), ih]
      by_cases hn : n ∈ ns
      · simp [hn]
      · have hne : c.1 ≠ n := fun h' => hn (h' ▸ hm)
        simp [hn, getColList, hne]
    · rw [if_pos (by simp [hm])]
      simp only [getColList]
      by_cases hc : c.1 = n
      · subst hc
        simp [hm]
      · rw [if_neg hc, ih]
        by_cases hn : n ∈ ns
        · simp [hn]
        · simp [hn, getColList, hc]

theorem DataFrame.getCol_setCol (df : DataFrame) (n n' : String) (cs : List CellValue) :
    (df.setCol n cs).getCol n' = if n' = n then some cs else df.getCol n' :=
  getColList_setColList df.cols n n' cs

theorem DataFrame.getCol_dropCols (df : DataFrame) (ns : List String) (n : String) :
    (df.dropCols ns).getCol n = if n ∈ ns then none else df.getCol n :=
  getColList_dropFilter df.cols ns n

/-- Whether a cell can live in a column of datetime dtype: a datetime value or
the missing value NaT. -/
def isDatetimelike : CellValue → Bool
  | .ts _ => true
  | .na => true
  | _ => false

/-- Result of reading an attribute `f` through the `.dt` accessor on one cell:
NaT propagates to NaN, a datetime yields the attribute value. -/
def dtCell (f : Timestamp → Int) : CellValue → CellValue
  | .ts t => .int (f t)
  | _ => .na

/-- Embeds a pandas `series.dt.f` read: the accessor raises unless the column
is of datetime dtype (it holds only datetime or missing cells), and otherwise
maps the attribute over the column, missing values propagating. -/
def dtAccessor (f : Timestamp → Int) (cells : List CellValue) :
    Except String (List CellValue) :=
  if cells.all isDatetimelike then .ok (cells.map (dtCell f))
  else .error "AttributeError: Can only use .dt accessor with datetimelike values"

/-- Comparison `cell >= k` as pandas evaluates it elementwise: NaN (and any
non-numeric cell) compares false. -/
def cellGe (c : CellValue) (k : Int) : Bool :=
  match c with
  | .int n => k ≤ n
  | _ => false

/-- Comparison `cell < k` as pandas evaluates it elementwise: NaN (and any
non-numeric cell) compares false. -/
def cellLt (c : CellValue) (k : Int) : Bool :=
  match c with
  | .int n => n < k
  | _ => false

/-- Embeds `.astype(int)` applied to one boolean cell. -/
def boolToIntCell (b : Bool) : CellValue :=
  .int (if b then 1 else 0)

/-- Embeds `series.map(location_mapping)` on one cell: a dictionary lookup,
where a string key found in the mapping yields its category and anything else
(an unmapped string, a missing value, a non-string cell) yields NaN. -/
def mapCell (location_mapping : List (String × String)) (c : CellValue) : CellValue :=
  match c with
  | .str s =>
    match location_mapping.lookup s with
    | some g => .str g
    | none => .na
  | _ => .na

/-- Embeds `.fillna(d)` on one cell. -/
def fillnaCell (c d : CellValue) : CellValue :=
  match c with
  | .na => d
  | _ => c

/-- One cell of the `location_group` column:
`df['location_description'].map(location_mapping).fillna("Unknown/Other")`. -/
def locGroupCell (location_mapping : List (String × String)) (c : CellValue) : CellValue :=
  fillnaCell (mapCell location_mapping c) (.str "Unknown/Other")

/-- One cell of the `is_night` column, from the corresponding `hour` cell:
`((df['hour'] >= 18) | (df['hour'] < 6)).astype(int)`. -/
def isNightCell (c : CellValue) : CellValue :=
  boolToIntCell (cellGe c 18 || cellLt c 6)

/-- One cell of the `is_weekend` column, from the corresponding `day_of_week`
cell: `(df['day_of_week'] >= 5).astype(int)`. -/
def isWeekendCell (c : CellValue) : CellValue :=
  boolToIntCell (cellGe c 5)

/-- Embedding of `prepare_features` from `src/chicago_crimes/data_loader.py`.
The date column is read once up front; the source re-reads `df['date']` on
each line, but none of the intervening assignments touch that column, so the
reads all return the same cells.  Likewise `df['hour']` and `df['day_of_week']`
are read back immediately after being assigned, so the assigned cell lists are
used directly. -/
def prepare_features (df : DataFrame) (location_mapping : List (String × String)) :
    Except String DataFrame := do
  let dateCells ← getColE df "date"
  let hourCells ← dtAccessor (fun t => (t.hour : Int)) dateCells
  let df := df.setCol "hour" hourCells
  let dowCells ← dtAccessor (fun t => (t.weekday : Int)) dateCells
  let df := df.setCol "day_of_week" dowCells
  let monthCells ← dtAccessor (fun t => (t.month : Int)) dateCells
  let df := df.setCol "month" monthCells
  let quarterCells ← dtAccessor (fun t => (t.quarter : Int)) dateCells
  let df := df.setCol "quarter" quarterCells
  let df := df.setCol "is_night" (hourCells.map isNightCell)
  let df := df.setCol "is_weekend" (dowCells.map isWeekendCell)
  let locCells ← getColE df "location_description"
  let df := df.setCol "location_group" (locCells.map (locGroupCell location_mapping))
  pure (df.dropCols ["date", "location_description"])

/-- Names of the columns `prepare_features` adds, in assignment order. -/
def derivedCols : List String :=
  ["hour", "day_of_week", "month", "quarter", "is_night", "is_weekend", "location_group"]

/-- The frame a successful run of `prepare_features` returns, written out as
the chain of column assignments and drops the source performs, in terms of the
date cells `dc` and location-description cells `lc` of the input. -/
def preparedFrame (df : DataFrame) (m : List (String × String))
    (dc lc : List CellValue) : DataFrame :=
  let hourCells := dc.map (dtCell (fun t => (t.hour : Int)))
  let dowCells := dc.map (dtCell (fun t => (t.weekday : Int)))
  let monthCells := dc.map (dtCell (fun t => (t.month : Int)))
  let quarterCells := dc.map (dtCell (fun t => (t.quarter : Int)))
  let d1 := df.setCol "hour" hourCells
  let d2 := d1.setCol "day_of_week" dowCells
  let d3 := d2.setCol "month" monthCells
  let d4 := d3.setCol "quarter" quarterCells
  let d5 := d4.setCol "is_night" (hourCells.map isNightCell)
  let d6 := d5.setCol "is_weekend" (dowCells.map isWeekendCell)
  let d7 := d6.setCol "location_group" (lc.map (locGroupCell m))
  d7.dropCols ["date", "location_description"]

theorem getColE_eq (df : DataFrame) (n : String) (cs : List CellValue)
    (h : df.getCol n = some cs) : getColE df n = .ok cs := by
  simp [getColE, h]

theorem dtAccessor_ok (f : Timestamp → Int) (cells : List CellValue)
    (h : cells.all isDatetimelike = true) :
    dtAccessor f cells = .ok (cells.map (dtCell f)) := by
  rw [dtAccessor, if_pos h]

theorem prepare_features_ok (df : DataFrame) (m : List (String × String))
    (dc lc : List CellValue)
    (hd : df.getCol "date" = some dc)
    (hdt : dc.all isDatetimelike = true)
    (hl : df.getCol "location_description" = some lc) :
    prepare_features df m = .ok (preparedFrame df m dc lc) := by
  simp only [prepare_features, getColE_eq _ _ _ hd, dtAccessor_ok _ _ hdt,
    bind, Except.bind]
  simp only [getColE, DataFrame.getCol_setCol]
  simp [hl, preparedFrame, pure, Except.pure]

theorem preparedFrame_getCol_is_night (df : DataFrame) (m : List (String × String))
    (dc lc : List CellValue) :
    (preparedFrame df m dc lc).getCol "is_night" =
      some ((dc.map (dtCell (fun t => (t.hour : Int)))).map isNightCell) := by
  simp [preparedFrame, DataFrame.getCol_dropCols, DataFrame.getCol_setCol]

theorem preparedFrame_getCol_is_weekend (df : DataFrame) (m : List (String × String))
    (dc lc : List CellValue) :
    (preparedFrame df m dc lc).getCol "is_weekend" =
      some ((dc.map (dtCell (fun t => (t.weekday : Int)))).map isWeekendCell) := by
  simp [preparedFrame, DataFrame.getCol_dropCols, DataFrame.getCol_setCol]

theorem preparedFrame_getCol_location_group (df : DataFrame) (m : List (String × String))
    (dc lc : List CellValue) :
    (preparedFrame df m dc lc).getCol "location_group" =
      some (lc.map (locGroupCell m)) := by
  simp [preparedFrame, DataFrame.getCol_dropCols, DataFrame.getCol_setCol]

/-- Number of rows of the frame: the length of its first column (pandas frames
are rectangular, so every column has this length). -/
def DataFrame.nRows (df : DataFrame) : Nat :=
  match df.cols with
  | [] => 0
  | c :: _ => c.2.length

/-- Whether row `i` holds a missing value in some column. -/
def rowHasNa (df : DataFrame) (i : Nat) : Bool :=
  df.cols.any (fun c => decide (c.2[i]? = some .na))

/-- Embeds `df.dropna()`: keeps exactly the rows without missing values. -/
def DataFrame.dropna (df : DataFrame) : DataFrame :=
  let keep := (List.range df.nRows).filter (fun i => !rowHasNa df i)
  ⟨df.cols.map (fun c => (c.1, keep.filterMap (fun i => c.2[i]?)))⟩

/-- Embeds the column selection `df[ns]` at a point where every requested name
is a column of the frame. -/
def DataFrame.selectCols (df : DataFrame) (ns : List String) : DataFrame :=
  ⟨ns.filterMap (fun n => (df.getCol n).map (fun cs => (n, cs)))⟩

/-- One record of `df.to_dict(orient="records")`: a mapping from column name
to the value of that column in one row, here an association list in column
order whose dictionary meaning is lookup by name. -/
def Record := List (String × CellValue)
deriving DecidableEq

/-- Embeds `convert_to_dict_features` from
`aws/src/chicago_crimes/feature_engineer.py`: `X.to_dict(orient="records")`. -/
def convert_to_dict_features (df : DataFrame) : List Record :=
  (List.range df.nRows).map (fun i =>
    df.cols.filterMap (fun c => (c.2[i]?).map (fun v => (c.1, v))))

/-- The trained classifier behind the prediction contract, an external
capability: per feature record it yields the predicted label and the
predicted probability of class 1 (`predict` and `predict_proba[:, 1]`). -/
def Model := Record → Nat × ℚ

/-- FEATURE_COLS from `src/chicago_crimes/config.py`. -/
def FEATURE_COLS : List String :=
  ["primary_type", "domestic", "district", "ward", "community_area", "fbi_code",
   "hour", "day_of_week", "month", "quarter", "is_night", "is_weekend",
   "location_group"]

/-- Risk thresholds from `lambda/config.py`:
`RISK_THRESHOLDS = {"HIGH": 0.7, "MEDIUM": 0.3}`. -/
structure RiskThresholds where
  HIGH : ℚ
  MEDIUM : ℚ

def RISK_THRESHOLDS : RiskThresholds :=
  { HIGH := 7/10, MEDIUM := 3/10 }

/-- Risk tier of one probability, as computed inline in `process_predictions`
(`aws/lambda/ml-predictor.py`): `"High" if p > RISK_THRESHOLDS["HIGH"] else
"Medium" if p > RISK_THRESHOLDS["MEDIUM"] else "Low"`. -/
def riskLevel (p : ℚ) : String :=
  if p > RISK_THRESHOLDS.HIGH then "High"
  else if p > RISK_THRESHOLDS.MEDIUM then "Medium"
  else "Low"

/-- Risk tier of one probability as the local web server `src/predict-api.py`
computes it: `pd.cut(probabilities, bins=[0, 0.3, 0.7, 1.0],
labels=['Low', 'Medium', 'High'])`.  With pandas defaults the bins are the
right-closed intervals (0, 0.3], (0.3, 0.7], (0.7, 1.0]; a value outside all
bins (in particular exactly 0) gets the missing label NaN, here `none`. -/
def cutRiskLevel (p : ℚ) : Option String :=
  if 0 < p ∧ p ≤ 3/10 then some "Low"
  else if 3/10 < p ∧ p ≤ 7/10 then some "Medium"
  else if 7/10 < p ∧ p ≤ 1 then some "High"
  else none

/-- The feature records `process_predictions` feeds to the vectorizer, lines
347–354 of `aws/lambda/ml-predictor.py`: prepare features on a copy of the
frame, drop rows with missing values, select every column other than `arrest`
and `id`, and convert to dictionary records. -/
def prediction_features (location_mapping : List (String × String))
    (df : DataFrame) : Except String (List Record) := do
  let processed ← prepare_features df location_mapping
  let processed := processed.dropna
  let feature_cols := processed.colNames.filter (fun c => c ∉ ["arrest", "id"])
  let X := processed.selectCols feature_cols
  pure (convert_to_dict_features X)

/-- Summary block of a prediction result. -/
structure PredSummary where
  total_cases : Nat
  predicted_arrests : Nat
  avg_probability : ℚ
  high_risk_cases : Nat
deriving DecidableEq

/-- Result dictionary built by `process_predictions`. -/
structure PredResults where
  predictions : List Nat
  probabilities : List ℚ
  risk_levels : List String
  summary : PredSummary
  source : String
deriving DecidableEq

/-- Embeds `process_predictions` from `aws/lambda/ml-predictor.py`.  The model
is the external classifier; `predict` and `predict_proba` score the same
records.  The Python `avg_probability` is the float mean, NaN on an empty
batch; here it is rational division, 0 on an empty batch. -/
def process_predictions (model : Model) (location_mapping : List (String × String))
    (df : DataFrame) (source_key : String) : Except String PredResults := do
  let xdict ← prediction_features location_mapping df
  let predictions := xdict.map (fun r => (model r).1)
  let probabilities := xdict.map (fun r => (model r).2)
  pure {
    predictions := predictions
    probabilities := probabilities
    risk_levels := probabilities.map riskLevel
    summary := {
      total_cases := predictions.length
      predicted_arrests := predictions.sum
      avg_probability := probabilities.sum / probabilities.length
      high_risk_cases := (probabilities.filter (fun p => p > RISK_THRESHOLDS.HIGH)).length }
    source := source_key }

/-- One item of the DynamoDB results table, keyed by file key in the store
itself.  Completed items carry the summary counts, error items the message. -/
structure StoredItem where
  status : String
  error_message : Option String
  total_cases : Option Nat
  predicted_arrests : Option Nat
  avg_probability : Option ℚ
  high_risk_cases : Option Nat
deriving DecidableEq

/-- The results table: latest put first; `put_item` on an existing key
overwrites, which prepending models because reads take the first match. -/
def Store := List (String × StoredItem)
deriving DecidableEq

def putItem (store : Store) (key : String) (item : StoredItem) : Store :=
  (key, item) :: store

def getItem : Store → String → Option StoredItem
  | [], _ => none
  | kv :: rest, key => if kv.1 = key then some kv.2 else getItem rest key

/-- Embeds `store_error_result`: persists the error message under the file key
with status "error". -/
def store_error_result (store : Store) (file_key : String) (error_message : String) :
    Store :=
  putItem store file_key
    { status := "error", error_message := some error_message, total_cases := none,
      predicted_arrests := none, avg_probability := none, high_risk_cases := none }

/-- Embeds the DynamoDB write of `store_results`: persists the summary counts
under the file key with status "completed".  The email notification it then
sends is an external effect outside this model. -/
def store_results (store : Store) (results : PredResults) (file_key : String) : Store :=
  putItem store file_key
    { status := "completed", error_message := none,
      total_cases := some results.summary.total_cases,
      predicted_arrests := some results.summary.predicted_arrests,
      avg_probability := some results.summary.avg_probability,
      high_risk_cases := some results.summary.high_risk_cases }

/-- Error message formats from `lambda/config.py` (`ERROR_MESSAGES`), already
formatted as `handle_s3_event` formats them. -/
def CORRUPTED_GZIP_MSG (key : String) : String :=
  s!"Corrupted gzip file: {key}. Please re-compress the file and upload again."

def DECOMPRESS_FAILED_MSG (e : String) : String :=
  s!"Failed to decompress gzip file: {e}"

def FILE_PROCESSING_FAILED_MSG (e : String) : String :=
  s!"File processing failed: {e}"

/-- What the external csv reader did with the S3 object inside the handler's
try block: produced a frame, failed on gzip decompression (with or without a
CRC mismatch, only possible for `.csv.gz` keys), or failed reading/parsing. -/
inductive ReadOutcome where
  | ok (df : DataFrame)
  | gzipCrcFailure (msg : String)
  | gzipOtherFailure (msg : String)
  | readFailure (msg : String)
deriving DecidableEq

/-- Embeds lines 248–250 of `handle_s3_event`: `if "date" in df.columns:
df["date"] = pd.to_datetime(df["date"], errors="coerce")`.  The external
pandas date parser is the parameter; unparseable strings coerce to NaT. -/
def coerceDates (parseDate : String → Option Timestamp) (df : DataFrame) : DataFrame :=
  match df.getCol "date" with
  | some cells => df.setCol "date" (cells.map (fun c =>
      match c with
      | .str s =>
        match parseDate s with
        | some t => .ts t
        | none => .na
      | .ts t => .ts t
      | _ => .na))
  | none => df

/-- Processing of one record of the S3 event inside the loop of
`handle_s3_event`.  Returns the store after the iteration together with either
the early-return response status code (`.ok`) or an uncaught exception
(`.error`): only failures inside the file-reading try block are stored; an
exception raised by `process_predictions` propagates, leaving the store as it
was. -/
def processS3Record (model : Model) (location_mapping : List (String × String))
    (parseDate : String → Option Timestamp) (key : String) (read : ReadOutcome)
    (store : Store) : Store × Except String Nat :=
  match read with
  | .gzipCrcFailure _ =>
    (store_error_result store key (CORRUPTED_GZIP_MSG key), .ok 500)
  | .gzipOtherFailure msg =>
    (store_error_result store key (DECOMPRESS_FAILED_MSG msg), .ok 500)
  | .readFailure msg =>
    (store_error_result store key (FILE_PROCESSING_FAILED_MSG msg), .ok 500)
  | .ok df =>
    let df := coerceDates parseDate df
    match process_predictions model location_mapping df key with
    | .error e => (store, .error e)
    | .ok results => (store_results store results key, .ok 200)

/-- Embeds `handle_s3_event` from `aws/lambda/ml-predictor.py` over the list
of S3 records of the event, each given as its key and the outcome of reading
its object: iterate `processS3Record`, stopping at an early-return response
or an uncaught exception; when every record completes, status 200. -/
def handle_s3_event (model : Model) (location_mapping : List (String × String))
    (parseDate : String → Option Timestamp) (records : List (String × ReadOutcome))
    (store : Store) : Store × Except String Nat :=
  match records with
  | [] => (store, .ok 200)
  | (key, read) :: rest =>
    match processS3Record model location_mapping parseDate key read store with
    | (store', .error e) => (store', .error e)
    | (store', .ok 200) => handle_s3_event model location_mapping parseDate rest store'
    | (store', .ok code) => (store', .ok code)

/-- State of the caller's dataframe object after `prepare_features(df, m)`
returns successfully.  In the source every update in `prepare_features` is
applied to the argument object itself — column assignment `df[...] = ...` and
`df.drop(columns=..., inplace=True)` — and the function returns that same
object, so after a successful call the caller's dataframe holds exactly the
returned frame. -/
def callerFrameAfterCall (df : DataFrame) (m : List (String × String)) :
    Except String DataFrame :=
  prepare_features df m

theorem riskLevel_eq_high_iff (p : ℚ) : riskLevel p = "High" ↔ 7/10 < p := by
  unfold riskLevel RISK_THRESHOLDS
  split_ifs with h1 h2 <;> simp_all

theorem riskLevel_eq_medium_iff (p : ℚ) :
    riskLevel p = "Medium" ↔ 3/10 < p ∧ p ≤ 7/10 := by
  unfold riskLevel RISK_THRESHOLDS
  split_ifs with h1 h2 <;> simp_all

theorem riskLevel_eq_low_iff (p : ℚ) : riskLevel p = "Low" ↔ p ≤ 3/10 := by
  unfold riskLevel RISK_THRESHOLDS
  split_ifs with h1 h2 <;> simp_all
  linarith

/-- C1: for every probability `p` the derived risk tier is "High" exactly when
`p > 0.7`, "Medium" exactly when `0.3 < p ≤ 0.7`, and "Low" otherwise
(`p ≤ 0.3`); in particular 0.75 yields High, 0.5 yields Medium and 0.1 yields
Low. -/
theorem risk_tier_thresholds (p : ℚ) :
    (riskLevel p = "High" ↔ 7/10 < p) ∧
    (riskLevel p = "Medium" ↔ 3/10 < p ∧ p ≤ 7/10) ∧
    (riskLevel p = "Low" ↔ p ≤ 3/10) ∧
    riskLevel (75/100) = "High" ∧ riskLevel (5/10) = "Medium" ∧
    riskLevel (1/10) = "Low" :=
  ⟨riskLevel_eq_high_iff p, riskLevel_eq_medium_iff p, riskLevel_eq_low_iff p,
    (riskLevel_eq_high_iff _).mpr (by norm_num),
    (riskLevel_eq_medium_iff _).mpr (by norm_num),
    (riskLevel_eq_low_iff _).mpr (by norm_num)⟩

/-- C2 counterexample: at probability 0, which lies in [0,1], the lambda's
threshold comparison yields "Low" while the web service's `pd.cut` bucketing
assigns no tier at all (0 falls outside the left-open first bin (0, 0.3]), so
the two disagree. -/
theorem risk_bucketing_disagrees_at_zero :
    (0 ≤ (0:ℚ) ∧ (0:ℚ) ≤ 1) ∧ cutRiskLevel 0 = none ∧ riskLevel 0 = "Low" ∧
    cutRiskLevel 0 ≠ some (riskLevel 0) := by
  have h1 : cutRiskLevel 0 = none := by norm_num [cutRiskLevel]
  exact ⟨by norm_num, h1, (riskLevel_eq_low_iff 0).mpr (by norm_num),
    by rw [h1]; exact fun h => Option.noConfusion h⟩

/-- C2 (amended): for every probability p with 0 < p ≤ 1, the risk tier
assigned by the lambda's threshold comparison equals the tier the web
service's bucketing of p into (0, 0.3], (0.3, 0.7], (0.7, 1.0] assigns; at
p = 0 the bucketing assigns no tier while the lambda assigns "Low". -/
theorem risk_bucketing_agrees_on_pos (p : ℚ) (h0 : 0 < p) (h1 : p ≤ 1) :
    cutRiskLevel p = some (riskLevel p) := by
  unfold cutRiskLevel riskLevel RISK_THRESHOLDS
  split_ifs <;> simp_all <;> linarith

/-- Witness for `risk_bucketing_agrees_on_pos` at p = 1/2. -/
theorem risk_bucketing_agrees_witness :
    cutRiskLevel (1/2) = some (riskLevel (1/2)) :=
  risk_bucketing_agrees_on_pos (1/2) (by norm_num) (by norm_num)

theorem boolToIntCell_eq_one (b : Bool) : boolToIntCell b = .int 1 ↔ b = true := by
  cases b <;> simp [boolToIntCell]

/-- C7: for every record whose timestamp parses, the derived `is_night` flag
is 1 exactly when the hour of the timestamp is ≥ 18 or < 6. -/
theorem is_night_iff_hour (df : DataFrame) (m : List (String × String))
    (dc lc : List CellValue) (r : DataFrame) (i : Nat) (t : Timestamp)
    (hd : df.getCol "date" = some dc)
    (hdt : dc.all isDatetimelike = true)
    (hl : df.getCol "location_description" = some lc)
    (hr : prepare_features df m = .ok r)
    (hi : dc[i]? = some (.ts t)) :
    ∃ nc, r.getCol "is_night" = some nc ∧
      (nc[i]? = some (.int 1) ↔ (18 ≤ t.hour ∨ t.hour < 6)) := by
  have h := prepare_features_ok df m dc lc hd hdt hl
  rw [hr] at h
  injection h with h
  subst h
  refine ⟨_, preparedFrame_getCol_is_night df m dc lc, ?_⟩
  rw [List.getElem?_map, List.getElem?_map, hi]
  simp only [Option.map_some', dtCell, isNightCell, Option.some.injEq]
  rw [boolToIntCell_eq_one]
  simp only [cellGe, cellLt, Bool.or_eq_true, decide_eq_true_eq]
  omega

/-- C8: for every record whose timestamp parses, the derived `is_weekend` flag
is 1 exactly when the day of week (Monday = 0) of the timestamp is ≥ 5. -/
theorem is_weekend_iff_weekday (df : DataFrame) (m : List (String × String))
    (dc lc : List CellValue) (r : DataFrame) (i : Nat) (t : Timestamp)
    (hd : df.getCol "date" = some dc)
    (hdt : dc.all isDatetimelike = true)
    (hl : df.getCol "location_description" = some lc)
    (hr : prepare_features df m = .ok r)
    (hi : dc[i]? = some (.ts t)) :
    ∃ wc, r.getCol "is_weekend" = some wc ∧
      (wc[i]? = some (.int 1) ↔ 5 ≤ t.weekday) := by
  have h := prepare_features_ok df m dc lc hd hdt hl
  rw [hr] at h
  injection h with h
  subst h
  refine ⟨_, preparedFrame_getCol_is_weekend df m dc lc, ?_⟩
  rw [List.getElem?_map, List.getElem?_map, hi]
  simp only [Option.map_some', dtCell, isWeekendCell, Option.some.injEq]
  rw [boolToIntCell_eq_one]
  simp only [cellGe, decide_eq_true_eq]
  omega

/-- C9: the `location_group` feature is the mapped category when the record's
location description is a key of the mapping, and "Unknown/Other" when it is
not. -/
theorem location_group_mapping (df : DataFrame) (m : List (String × String))
    (dc lc : List CellValue) (r : DataFrame) (i : Nat) (s : String)
    (hd : df.getCol "date" = some dc)
    (hdt : dc.all isDatetimelike = true)
    (hl : df.getCol "location_description" = some lc)
    (hr : prepare_features df m = .ok r)
    (hi : lc[i]? = some (.str s)) :
    ∃ gc, r.getCol "location_group" = some gc ∧
      (m.lookup s = none → gc[i]? = some (.str "Unknown/Other")) ∧
      (∀ g, m.lookup s = some g → gc[i]? = some (.str g)) := by
  have h := prepare_features_ok df m dc lc hd hdt hl
  rw [hr] at h
  injection h with h
  subst h
  refine ⟨_, preparedFrame_getCol_location_group df m dc lc, ?_, ?_⟩
  · intro hnone
    rw [List.getElem?_map, hi]
    simp [locGroupCell, mapCell, fillnaCell, hnone]
  · intro g hsome
    rw [List.getElem?_map, hi]
    simp [locGroupCell, mapCell, fillnaCell, hsome]

/-- Concrete one-row frame: incident at 2023-01-01 20:00 (a Sunday) on the
street. -/
def dfSunday : DataFrame :=
  ⟨[("date", [.ts ⟨2023, 1, 1, 20⟩]), ("location_description", [.str "STREET"])]⟩

def dcSunday : List CellValue := [.ts ⟨2023, 1, 1, 20⟩]

def lcSunday : List CellValue := [.str "STREET"]

/-- The frame `prepare_features` returns on `dfSunday` with an empty
mapping. -/
def rSunday : DataFrame :=
  ⟨[("hour", [.int 20]), ("day_of_week", [.int 6]), ("month", [.int 1]),
    ("quarter", [.int 1]), ("is_night", [.int 1]), ("is_weekend", [.int 1]),
    ("location_group", [.str "Unknown/Other"])]⟩

/-- Witness for `is_night_iff_hour` at the 20:00 Sunday record. -/
theorem is_night_iff_hour_witness :
    ∃ nc, rSunday.getCol "is_night" = some nc ∧
      (nc[0]? = some (.int 1) ↔
        (18 ≤ (⟨2023, 1, 1, 20⟩ : Timestamp).hour ∨
          (⟨2023, 1, 1, 20⟩ : Timestamp).hour < 6)) :=
  is_night_iff_hour dfSunday [] dcSunday lcSunday rSunday 0 ⟨2023, 1, 1, 20⟩
    (by decide) (by decide) (by decide) (by rfl) (by decide)

/-- Witness for `is_weekend_iff_weekday` at the 20:00 Sunday record. -/
theorem is_weekend_iff_weekday_witness :
    ∃ wc, rSunday.getCol "is_weekend" = some wc ∧
      (wc[0]? = some (.int 1) ↔ 5 ≤ (⟨2023, 1, 1, 20⟩ : Timestamp).weekday) :=
  is_weekend_iff_weekday dfSunday [] dcSunday lcSunday rSunday 0 ⟨2023, 1, 1, 20⟩
    (by decide) (by decide) (by decide) (by rfl) (by decide)

/-- Concrete one-row frame: incident at 2024-02-29 03:00 in a garage, a
location description the mapping does not know. -/
def dfGarage : DataFrame :=
  ⟨[("date", [.ts ⟨2024, 2, 29, 3⟩]), ("location_description", [.str "GARAGE"])]⟩

def dcGarage : List CellValue := [.ts ⟨2024, 2, 29, 3⟩]

def lcGarage : List CellValue := [.str "GARAGE"]

def mStreet : List (String × String) := [("STREET", "Street/Public")]

/-- The frame `prepare_features` returns on `dfGarage` under `mStreet`. -/
def rGarage : DataFrame :=
  ⟨[("hour", [.int 3]), ("day_of_week", [.int 3]), ("month", [.int 2]),
    ("quarter", [.int 1]), ("is_night", [.int 1]), ("is_weekend", [.int 0]),
    ("location_group", [.str "Unknown/Other"])]⟩

/-- Witness for `location_group_mapping` at the unmapped "GARAGE". -/
theorem location_group_mapping_witness :
    ∃ gc, rGarage.getCol "location_group" = some gc ∧
      (mStreet.lookup "GARAGE" = none → gc[0]? = some (.str "Unknown/Other")) ∧
      (∀ g, mStreet.lookup "GARAGE" = some g → gc[0]? = some (.str g)) :=
  location_group_mapping dfGarage mStreet dcGarage lcGarage rGarage 0 "GARAGE"
    (by decide) (by decide) (by decide) (by rfl) (by decide)

/-- Concrete one-row frame with a present, parseable timestamp but no
location-description column. -/
def dfNoLocDesc : DataFrame := ⟨[("date", [.ts ⟨2023, 1, 2, 10⟩])]⟩

/-- C4 counterexample: a record with a present, parseable timestamp for which
`prepare_features` nevertheless raises, because the location-description
column is absent — contradicting "for every record with a present, parseable
timestamp it returns a feature vector without error". -/
theorem prepare_features_fails_without_location_description :
    dfNoLocDesc.getCol "date" = some [.ts ⟨2023, 1, 2, 10⟩] ∧
    ([CellValue.ts ⟨2023, 1, 2, 10⟩].all isDatetimelike = true) ∧
    prepare_features dfNoLocDesc [] = .error "KeyError: location_description" :=
  ⟨by decide, by decide, by rfl⟩

/-- C4 (amended): `prepare_features` returns a feature frame without error
exactly when the timestamp column is present with all values parsed as dates
and the location-description column is also present; it raises when the
timestamp column is absent or unparsed, and also when the location-description
column is absent. -/
theorem prepare_features_failure_characterization (df : DataFrame)
    (m : List (String × String)) :
    (∃ r, prepare_features df m = .ok r) ↔
      ((∃ dc, df.getCol "date" = some dc ∧ dc.all isDatetimelike = true) ∧
        (∃ lc, df.getCol "location_description" = some lc)) := by
  constructor
  · rintro ⟨r, hr⟩
    cases hdate : df.getCol "date" with
    | none =>
      simp only [prepare_features, getColE, hdate, bind, Except.bind] at hr
      exact Except.noConfusion hr
    | some dc =>
      by_cases hdt : dc.all isDatetimelike
      · cases hloc : df.getCol "location_description" with
        | none =>
          simp only [prepare_features, getColE_eq _ _ _ hdate, dtAccessor_ok _ _ hdt,
            bind, Except.bind] at hr
          simp only [getColE, DataFrame.getCol_setCol] at hr
          simp [hloc] at hr
        | some lc => exact ⟨⟨dc, rfl, hdt⟩, ⟨lc, rfl⟩⟩
      · simp only [Bool.not_eq_true] at hdt
        simp only [prepare_features, getColE_eq _ _ _ hdate, bind, Except.bind,
          dtAccessor, hdt] at hr
        simp at hr
  · rintro ⟨⟨dc, hd, hdt⟩, ⟨lc, hl⟩⟩
    exact ⟨_, prepare_features_ok df m dc lc hd hdt hl⟩

theorem setColList_append_fresh (l : List (String × List CellValue)) (n : String)
    (cs : List CellValue) (h : n ∉ l.map Prod.fst) :
    setColList l n cs = l ++ [(n, cs)] := by
  induction l with
  | nil => rfl
  | cons c rest ih =>
    rw [List.map_cons] at h
    have h1 : c.1 ≠ n := fun h' => h (by simp [h'])
    have h2 : n ∉ rest.map Prod.fst := fun h' => h (by simp [h'])
    simp [setColList, h1, ih h2]

theorem mapFst_filter (l : List (String × List CellValue)) (ns : List String) :
    (l.filter (fun c => c.1 ∉ ns)).map Prod.fst =
      (l.map Prod.fst).filter (fun n => n ∉ ns) := by
  induction l with
  | nil => simp
  | cons c rest ih =>
    simp only [List.map_cons, List.filter_cons]
    by_cases h : c.1 ∈ ns
    · rw [if_neg (by simp [h]), if_neg (by simp [h])]
      exact ih
    · rw [if_pos (by simp [h]), if_pos (by simp [h]), List.map_cons, ih]

theorem setColList_seven (l : List (String × List CellValue))
    (a b c d e f g : List CellValue)
    (h1 : "hour" ∉ l.map Prod.fst)
    (h2 : "day_of_week" ∉ l.map Prod.fst)
    (h3 : "month" ∉ l.map Prod.fst)
    (h4 : "quarter" ∉ l.map Prod.fst)
    (h5 : "is_night" ∉ l.map Prod.fst)
    (h6 : "is_weekend" ∉ l.map Prod.fst)
    (h7 : "location_group" ∉ l.map Prod.fst) :
    setColList (setColList (setColList (setColList (setColList (setColList (setColList
      l "hour" a) "day_of_week" b) "month" c) "quarter" d) "is_night" e)
      "is_weekend" f) "location_group" g =
      l ++ [("hour", a), ("day_of_week", b), ("month", c), ("quarter", d),
        ("is_night", e), ("is_weekend", f), ("location_group", g)] := by
  rw [setColList_append_fresh l _ _ h1]
  rw [setColList_append_fresh (l ++ [("hour", a)]) _ _ (by simp [h2])]
  rw [setColList_append_fresh (l ++ [("hour", a)] ++ [("day_of_week", b)]) _ _
    (by simp [h3])]
  rw [setColList_append_fresh
    (l ++ [("hour", a)] ++ [("day_of_week", b)] ++ [("month", c)]) _ _ (by simp [h4])]
  rw [setColList_append_fresh
    (l ++ [("hour", a)] ++ [("day_of_week", b)] ++ [("month", c)] ++ [("quarter", d)])
    _ _ (by simp [h5])]
  rw [setColList_append_fresh
    (l ++ [("hour", a)] ++ [("day_of_week", b)] ++ [("month", c)] ++ [("quarter", d)]
      ++ [("is_night", e)]) _ _ (by simp [h6])]
  rw [setColList_append_fresh
    (l ++ [("hour", a)] ++ [("day_of_week", b)] ++ [("month", c)] ++ [("quarter", d)]
      ++ [("is_night", e)] ++ [("is_weekend", f)]) _ _ (by simp [h7])]
  simp

/-- Columns of the frame a successful `prepare_features` run produces, when
the derived feature names are fresh in the input: the input columns minus the
two dropped ones, with the seven derived columns appended in order. -/
theorem preparedFrame_cols (df : DataFrame) (m : List (String × String))
    (dc lc : List CellValue)
    (hfresh : ∀ n ∈ derivedCols, n ∉ df.colNames) :
    (preparedFrame df m dc lc).cols =
      df.cols.filter (fun c => c.1 ∉ (["date", "location_description"] : List String)) ++
      [("hour", dc.map (dtCell (fun t => (t.hour : Int)))),
       ("day_of_week", dc.map (dtCell (fun t => (t.weekday : Int)))),
       ("month", dc.map (dtCell (fun t => (t.month : Int)))),
       ("quarter", dc.map (dtCell (fun t => (t.quarter : Int)))),
       ("is_night", (dc.map (dtCell (fun t => (t.hour : Int)))).map isNightCell),
       ("is_weekend", (dc.map (dtCell (fun t => (t.weekday : Int)))).map isWeekendCell),
       ("location_group", lc.map (locGroupCell m))] := by
  have hf : ∀ n ∈ derivedCols, n ∉ df.cols.map Prod.fst := hfresh
  have h1 := hf "hour" (by decide)
  have h2 := hf "day_of_week" (by decide)
  have h3 := hf "month" (by decide)
  have h4 := hf "quarter" (by decide)
  have h5 := hf "is_night" (by decide)
  have h6 := hf "is_weekend" (by decide)
  have h7 := hf "location_group" (by decide)
  simp only [preparedFrame, DataFrame.setCol, DataFrame.dropCols]
  rw [setColList_seven df.cols _ _ _ _ _ _ _ h1 h2 h3 h4 h5 h6 h7,
    List.filter_append]
  simp

/-- C3 counterexample: on a concrete record, the caller's dataframe after a
call to `prepare_features` differs from the one passed in — fields were added
("hour" and the other derived columns) and removed ("date",
"location_description") — because the function updates the argument object in
place. -/
theorem prepare_features_mutates_caller_frame :
    callerFrameAfterCall dfSunday [] = .ok rSunday ∧ rSunday ≠ dfSunday ∧
    "hour" ∉ dfSunday.colNames ∧ "hour" ∈ rSunday.colNames ∧
    "date" ∈ dfSunday.colNames ∧ "date" ∉ rSunday.colNames :=
  ⟨by rfl, by decide, by decide, by decide, by decide, by decide⟩

/-- C3 (amended): `prepare_features` is deterministic but mutates the
dataframe passed to it: after a successful call the caller's frame holds the
input columns minus `date` and `location_description`, with the seven derived
feature columns appended; a caller keeps its original data only if it passes
a copy itself (the two prediction paths call it on `df.copy()`, while
`create_dataset` passes its frame directly and lets it be mutated). -/
theorem caller_frame_after_prepare_features (df : DataFrame)
    (m : List (String × String)) (dc lc : List CellValue)
    (hd : df.getCol "date" = some dc)
    (hdt : dc.all isDatetimelike = true)
    (hl : df.getCol "location_description" = some lc)
    (hfresh : ∀ n ∈ derivedCols, n ∉ df.colNames) :
    ∃ r, callerFrameAfterCall df m = .ok r ∧
      r.colNames =
        df.colNames.filter
          (fun n => n ∉ (["date", "location_description"] : List String)) ++
        derivedCols := by
  refine ⟨preparedFrame df m dc lc, prepare_features_ok df m dc lc hd hdt hl, ?_⟩
  show ((preparedFrame df m dc lc).cols).map Prod.fst = _
  rw [preparedFrame_cols df m dc lc hfresh, List.map_append, mapFst_filter]
  rfl

/-- Witness for `caller_frame_after_prepare_features` at the Sunday record. -/
theorem caller_frame_after_prepare_features_witness :
    ∃ r, callerFrameAfterCall dfSunday [] = .ok r ∧
      r.colNames =
        dfSunday.colNames.filter
          (fun n => n ∉ (["date", "location_description"] : List String)) ++
        derivedCols :=
  caller_frame_after_prepare_features dfSunday [] dcSunday lcSunday
    (by decide) (by decide) (by decide) (by decide)

/-- C6 (amended): every failure inside the file-reading try block of the
storage-event handler — corrupted gzip, other decompression failure, or any
other read/parse failure — is persisted under the triggering file key with
status "error" and the formatted message, retrievable by that key, and the
handler returns status 500.  Failures raised later, during feature
preparation or prediction, propagate out of the handler without persisting
any record (see the counterexample). -/
theorem s3_read_failures_store_error (model : Model)
    (lm : List (String × String)) (parse : String → Option Timestamp)
    (key : String) (store : Store) (msg : String) :
    (getItem (processS3Record model lm parse key (.gzipCrcFailure msg) store).1 key =
        some { status := "error",
               error_message := some (CORRUPTED_GZIP_MSG key),
               total_cases := none, predicted_arrests := none,
               avg_probability := none, high_risk_cases := none } ∧
      (processS3Record model lm parse key (.gzipCrcFailure msg) store).2 = .ok 500) ∧
    (getItem (processS3Record model lm parse key (.gzipOtherFailure msg) store).1 key =
        some { status := "error",
               error_message := some (DECOMPRESS_FAILED_MSG msg),
               total_cases := none, predicted_arrests := none,
               avg_probability := none, high_risk_cases := none } ∧
      (processS3Record model lm parse key (.gzipOtherFailure msg) store).2 = .ok 500) ∧
    (getItem (processS3Record model lm parse key (.readFailure msg) store).1 key =
        some { status := "error",
               error_message := some (FILE_PROCESSING_FAILED_MSG msg),
               total_cases := none, predicted_arrests := none,
               avg_probability := none, high_risk_cases := none } ∧
      (processS3Record model lm parse key (.readFailure msg) store).2 = .ok 500) := by
  refine ⟨⟨?_, rfl⟩, ⟨?_, rfl⟩, ⟨?_, rfl⟩⟩ <;>
    simp [processS3Record, store_error_result, putItem, getItem]

/-- Arbitrary stand-in for the external classifier, never reached on the
counterexample path. -/
def model0 : Model := fun _ => (0, 0)

/-- External date parser stand-in. -/
def parse0 : String → Option Timestamp := fun _ => none

/-- A syntactically valid CSV frame that lacks the `date` column. -/
def dfNoDate : DataFrame := ⟨[("primary_type", [.str "THEFT"])]⟩

/-- C6 counterexample: a file that reads fine but fails during processing
(here: no `date` column, so `prepare_features` raises KeyError) is a
file-processing failure after which NO record at all — in particular none
with status "error" — is persisted under the triggering key: the exception
propagates out of `handle_s3_event` (the try block ends before
`process_predictions` is called) and the store is left untouched. -/
theorem s3_prediction_failure_not_stored :
    (handle_s3_event model0 [] parse0 [("uploads/bad.csv", .ok dfNoDate)] []).2 =
      .error "KeyError: date" ∧
    (handle_s3_event model0 [] parse0 [("uploads/bad.csv", .ok dfNoDate)] []).1 = [] ∧
    getItem (handle_s3_event model0 [] parse0
      [("uploads/bad.csv", .ok dfNoDate)] []).1 "uploads/bad.csv" = none :=
  ⟨by rfl, by rfl, by rfl⟩

theorem sum_le_length_of_le_one (l : List Nat) (h : ∀ x ∈ l, x ≤ 1) :
    l.sum ≤ l.length := by
  induction l with
  | nil => simp
  | cons a t ih =>
    simp only [List.sum_cons, List.length_cons]
    have ha := h a (by simp)
    have ht := ih (fun x hx => h x (by simp [hx]))
    omega

theorem count_high_eq (l : List ℚ) :
    (l.filter (fun p => p > RISK_THRESHOLDS.HIGH)).length =
      ((l.map riskLevel).filter (fun s => s = "High")).length := by
  induction l with
  | nil => rfl
  | cons p t ih =>
    simp only [List.map_cons, List.filter_cons]
    by_cases h : RISK_THRESHOLDS.HIGH < p
    · rw [if_pos (by simpa using h),
        if_pos (by simp [(riskLevel_eq_high_iff p).mpr h])]
      simp [ih]
    · rw [if_neg (by simpa using h),
        if_neg (by simp; exact fun heq => h ((riskLevel_eq_high_iff p).mp heq))]
      exact ih

/-- C10: every successful `process_predictions` result is internally
consistent: the three lists share length `total_cases`; `high_risk_cases`
counts exactly the "High" entries of `risk_levels`; and `predicted_arrests`
is the sum of the predictions, at most `total_cases` since the classifier's
labels are binary. -/
theorem process_predictions_consistency (model : Model)
    (lm : List (String × String)) (df : DataFrame) (key : String)
    (res : PredResults)
    (hok : process_predictions model lm df key = .ok res)
    (hbin : ∀ r : Record, (model r).1 ≤ 1) :
    res.predictions.length = res.summary.total_cases ∧
    res.probabilities.length = res.summary.total_cases ∧
    res.risk_levels.length = res.summary.total_cases ∧
    res.summary.high_risk_cases =
      (res.risk_levels.filter (fun s => s = "High")).length ∧
    res.summary.predicted_arrests = res.predictions.sum ∧
    res.summary.predicted_arrests ≤ res.summary.total_cases := by
  cases hx : prediction_features lm df with
  | error e =>
    simp only [process_predictions, hx, bind, Except.bind] at hok
    exact Except.noConfusion hok
  | ok xdict =>
    simp only [process_predictions, hx, bind, Except.bind, pure, Except.pure] at hok
    injection hok with hok
    subst hok
    refine ⟨rfl, by simp, by simp, ?_, rfl, ?_⟩
    · exact count_high_eq (xdict.map (fun r => (model r).2))
    · simp only [List.length_map]
      calc (xdict.map (fun r => (model r).1)).sum
          ≤ (xdict.map (fun r => (model r).1)).length :=
            sum_le_length_of_le_one _ (by
              intro x hx
              rcases List.mem_map.mp hx with ⟨r, _, hr⟩
              exact hr ▸ hbin r)
        _ = xdict.length := List.length_map _ _

/-- Classifier stand-in that flags every record as an arrest with probability
9/10. -/
def model1 : Model := fun _ => (1, 9/10)

/-- The result `process_predictions` computes on `dfSunday` under `model1`
(rational-valued fields left as the expressions the pipeline builds). -/
def res1 : PredResults :=
  { predictions := [1], probabilities := [9/10],
    risk_levels := [riskLevel (9/10)],
    summary := { total_cases := 1, predicted_arrests := 1,
                 avg_probability := ((9:ℚ)/10 + 0) / ((1:Nat) : ℚ),
                 high_risk_cases :=
                   ([(9:ℚ)/10].filter (fun p => p > RISK_THRESHOLDS.HIGH)).length },
    source := "k" }

theorem getColList_mem (l : List (String × List CellValue)) (n : String)
    (cs : List CellValue) (h : getColList l n = some cs) : (n, cs) ∈ l := by
  induction l with
  | nil => exact Option.noConfusion h
  | cons c rest ih =>
    by_cases hc : c.1 = n
    · rw [getColList, if_pos hc] at h
      injection h with h
      subst h
      subst hc
      simp
    · rw [getColList, if_neg hc] at h
      exact List.mem_cons_of_mem _ (ih h)

theorem dropna_id_of_single (df : DataFrame)
    (h1 : ∀ c ∈ df.cols, c.2.length = 1)
    (h2 : ∀ c ∈ df.cols, CellValue.na ∉ c.2) :
    df.dropna = df := by
  obtain ⟨cols⟩ := df
  cases cols with
  | nil => rfl
  | cons c rest =>
    have hrows : (DataFrame.mk (c :: rest)).nRows = 1 := h1 c (by simp)
    have hna0 : rowHasNa (DataFrame.mk (c :: rest)) 0 = false := by
      simp only [rowHasNa, List.any_eq_false, decide_eq_true_eq]
      intro x hx
      obtain ⟨a, ha⟩ := List.length_eq_one.mp (h1 x hx)
      have hna := h2 x hx
      rw [ha] at hna ⊢
      simp only [List.mem_singleton] at hna
      simp [Ne.symm hna]
    have hkeep : (List.range (DataFrame.mk (c :: rest)).nRows).filter
        (fun i => !rowHasNa (DataFrame.mk (c :: rest)) i) = [0] := by
      rw [hrows, show List.range 1 = [0] from rfl]
      simp [hna0]
    simp only [DataFrame.dropna]
    rw [hkeep]
    congr 1
    have hcell : ∀ x ∈ c :: rest,
        (x.1, [0].filterMap (fun i => x.2[i]?)) = x := by
      intro x hx
      obtain ⟨a, ha⟩ := List.length_eq_one.mp (h1 x hx)
      obtain ⟨x1, x2⟩ := x
      simp only at ha
      rw [ha]
      simp
    rw [List.map_congr_left hcell]
    simp

theorem selectCols_props (l : List (String × List CellValue)) (ns : List String)
    (h : ∀ n ∈ ns, n ∈ l.map Prod.fst) :
    ((DataFrame.mk l).selectCols ns).cols.map Prod.fst = ns ∧
    ∀ c ∈ ((DataFrame.mk l).selectCols ns).cols, c ∈ l := by
  induction ns with
  | nil => simp [DataFrame.selectCols]
  | cons n t ih =>
    have hn := h n (by simp)
    obtain ⟨cs, hcs⟩ : ∃ cs, getColList l n = some cs := by
      cases hg : getColList l n with
      | none => exact absurd hn ((getColList_eq_none l n).mp hg)
      | some cs => exact ⟨cs, rfl⟩
    have iht := ih (fun x hx => h x (by simp [hx]))
    constructor
    · simp only [DataFrame.selectCols, List.filterMap_cons, DataFrame.getCol, hcs,
        Option.map_some', List.map_cons]
      exact congrArg (n :: ·) iht.1
    · intro c hc
      simp only [DataFrame.selectCols, List.filterMap_cons, DataFrame.getCol, hcs,
        Option.map_some', List.mem_cons] at hc
      rcases hc with rfl | hc
      · exact getColList_mem l n cs hcs
      · exact iht.2 c hc

theorem rowKeys (l : List (String × List CellValue))
    (h : ∀ c ∈ l, c.2.length = 1) :
    (l.filterMap (fun c => (c.2[0]?).map (fun v => (c.1, v)))).map Prod.fst =
      l.map Prod.fst := by
  induction l with
  | nil => rfl
  | cons c rest ih =>
    obtain ⟨a, ha⟩ := List.length_eq_one.mp (h c (by simp))
    rw [List.filterMap_cons, ha]
    simp only [List.getElem?_cons_zero, Option.map_some', List.map_cons]
    exact congrArg (c.1 :: ·) (ih (fun x hx => h x (by simp [hx])))

theorem convert_single_row_keys (X : DataFrame) (hne : X.cols ≠ [])
    (h1 : ∀ c ∈ X.cols, c.2.length = 1) :
    ∃ rec, convert_to_dict_features X = [rec] ∧
      rec.map Prod.fst = X.cols.map Prod.fst := by
  have hrows : X.nRows = 1 := by
    obtain ⟨cols⟩ := X
    cases cols with
    | nil => exact absurd rfl hne
    | cons c rest => exact h1 c (by simp)
  refine ⟨X.cols.filterMap (fun c => (c.2[0]?).map (fun v => (c.1, v))), ?_, ?_⟩
  · rw [convert_to_dict_features, hrows, show List.range 1 = [0] from rfl]
    rfl
  · exact rowKeys X.cols h1

theorem locGroupCell_is_str (m : List (String × String)) (u : CellValue) :
    ∃ s, locGroupCell m u = .str s := by
  cases u with
  | str s =>
    cases hl : m.lookup s with
    | none => exact ⟨"Unknown/Other", by simp [locGroupCell, mapCell, fillnaCell, hl]⟩
    | some g => exact ⟨g, by simp [locGroupCell, mapCell, fillnaCell, hl]⟩
  | int n => exact ⟨"Unknown/Other", by simp [locGroupCell, mapCell, fillnaCell]⟩
  | ts t => exact ⟨"Unknown/Other", by simp [locGroupCell, mapCell, fillnaCell]⟩
  | na => exact ⟨"Unknown/Other", by simp [locGroupCell, mapCell, fillnaCell]⟩

theorem lookup_perm_eq (r1 r2 : Record) (hp : List.Perm r1 r2)
    (hnd : (List.map Prod.fst r1).Nodup) (k : String) :
    List.lookup k r1 = List.lookup k r2 := by
  induction hp with
  | nil => rfl
  | cons a _ ih =>
    simp only [List.map_cons, List.nodup_cons] at hnd
    obtain ⟨a1, a2⟩ := a
    simp only [List.lookup]
    cases h : k == a1
    · exact ih hnd.2
    · rfl
  | swap x y l =>
    obtain ⟨x1, x2⟩ := x
    obtain ⟨y1, y2⟩ := y
    have hxy : ¬ (x1 = y1) := by
      intro h
      subst h
      simp at hnd
    cases hky : k == y1 <;> cases hkx : k == x1 <;>
      simp [List.lookup, hky, hkx]
    exact absurd ((eq_of_beq hkx).symm.trans (eq_of_beq hky)) hxy
  | trans h12 _ ih1 ih2 =>
    refine (ih1 hnd).trans (ih2 ?_)
    exact (h12.map Prod.fst).nodup_iff.mp hnd

/-- C5 (amended): the features fed to the vectorizer are a name-to-value
mapping (so order-independent: permuting a record with distinct names leaves
every lookup unchanged), and per record its names are exactly the seven
derived features together with EVERY input column other than `arrest`, `id`,
`date` and `location_description` — extra input columns flow into the
vectorizer rather than being excluded, so the set is fixed only for inputs
carrying exactly the expected raw schema. -/
theorem prediction_feature_set (df : DataFrame) (m : List (String × String))
    (t : Timestamp) (u : CellValue)
    (hd : df.getCol "date" = some [.ts t])
    (hl : df.getCol "location_description" = some [u])
    (hone : ∀ c ∈ df.cols, c.2.length = 1)
    (hnona : ∀ c ∈ df.cols, CellValue.na ∉ c.2)
    (hfresh : ∀ n ∈ derivedCols, n ∉ df.colNames) :
    (∃ rec, prediction_features m df = .ok [rec] ∧
      rec.map Prod.fst =
        ((df.colNames.filter
            (fun n => n ∉ (["date", "location_description"] : List String)) ++
          derivedCols).filter
          (fun n => n ∉ (["arrest", "id"] : List String)))) ∧
    (∀ (r1 r2 : Record), List.Perm r1 r2 → (r1.map Prod.fst).Nodup →
      ∀ k, List.lookup k r1 = List.lookup k r2) := by
  refine ⟨?_, fun r1 r2 hp hnd k => lookup_perm_eq r1 r2 hp hnd k⟩
  have hdt : ([CellValue.ts t]).all isDatetimelike = true := by
    simp [isDatetimelike]
  have hok := prepare_features_ok df m [.ts t] [u] hd hdt hl
  have hPcols := preparedFrame_cols df m [.ts t] [u] hfresh
  have hP1 : ∀ c ∈ (preparedFrame df m [.ts t] [u]).cols, c.2.length = 1 := by
    rw [hPcols]
    intro c hc
    rcases List.mem_append.mp hc with hcl | hcr
    · exact hone c (List.mem_of_mem_filter hcl)
    · simp only [List.mem_cons, List.not_mem_nil, or_false] at hcr
      rcases hcr with rfl | rfl | rfl | rfl | rfl | rfl | rfl <;> simp
  have hP2 : ∀ c ∈ (preparedFrame df m [.ts t] [u]).cols, CellValue.na ∉ c.2 := by
    rw [hPcols]
    intro c hc
    rcases List.mem_append.mp hc with hcl | hcr
    · exact hnona c (List.mem_of_mem_filter hcl)
    · simp only [List.mem_cons, List.not_mem_nil, or_false] at hcr
      obtain ⟨s, hs⟩ := locGroupCell_is_str m u
      rcases hcr with rfl | rfl | rfl | rfl | rfl | rfl | rfl <;>
        simp [dtCell, isNightCell, isWeekendCell, boolToIntCell, hs]
  have hdrop : (preparedFrame df m [.ts t] [u]).dropna = preparedFrame df m [.ts t] [u] :=
    dropna_id_of_single _ hP1 hP2
  have hnames : (preparedFrame df m [.ts t] [u]).cols.map Prod.fst =
      df.colNames.filter
        (fun n => n ∉ (["date", "location_description"] : List String)) ++
      derivedCols := by
    rw [hPcols, List.map_append, mapFst_filter]
    rfl
  have hns_sub : ∀ n ∈ (preparedFrame df m [.ts t] [u]).colNames.filter
      (fun c => c ∉ (["arrest", "id"] : List String)),
      n ∈ (preparedFrame df m [.ts t] [u]).cols.map Prod.fst :=
    fun n hn => List.mem_of_mem_filter hn
  have hsel := selectCols_props (preparedFrame df m [.ts t] [u]).cols
    ((preparedFrame df m [.ts t] [u]).colNames.filter
      (fun c => c ∉ (["arrest", "id"] : List String))) hns_sub
  have hX1 : ∀ c ∈ ((preparedFrame df m [.ts t] [u]).selectCols
      ((preparedFrame df m [.ts t] [u]).colNames.filter
        (fun c => c ∉ (["arrest", "id"] : List String)))).cols, c.2.length = 1 :=
    fun c hc => hP1 c (hsel.2 c hc)
  have hhour : "hour" ∈ (preparedFrame df m [.ts t] [u]).colNames.filter
      (fun c => c ∉ (["arrest", "id"] : List String)) := by
    have : (preparedFrame df m [.ts t] [u]).colNames =
        df.colNames.filter
          (fun n => n ∉ (["date", "location_description"] : List String)) ++
        derivedCols := hnames
    rw [List.mem_filter, this]
    constructor
    · simp [derivedCols]
    · decide
  have hXne : ((preparedFrame df m [.ts t] [u]).selectCols
      ((preparedFrame df m [.ts t] [u]).colNames.filter
        (fun c => c ∉ (["arrest", "id"] : List String)))).cols ≠ [] := by
    intro hnil
    have h1 := hsel.1
    rw [hnil] at h1
    rw [← h1] at hhour
    exact List.not_mem_nil _ hhour
  obtain ⟨rec, hrec, hreckeys⟩ := convert_single_row_keys _ hXne hX1
  refine ⟨rec, ?_, ?_⟩
  · simp only [prediction_features, hok, bind, Except.bind]
    rw [hdrop]
    simp only [pure, Except.pure]
    exact congrArg Except.ok hrec
  · rw [hreckeys, hsel.1]
    simp only [DataFrame.colNames]
    rw [hnames]
    rfl

/-- A one-row upload carrying the expected raw fields plus an extra column
`block` (a field the training pipeline's removal list drops, but which an
uploaded CSV may well contain). -/
def dfBlock : DataFrame :=
  ⟨[("date", [.ts ⟨2023, 1, 2, 10⟩]), ("primary_type", [.str "THEFT"]),
    ("block", [.str "001XX N STATE ST"]), ("location_description", [.str "STREET"])]⟩

/-- The single feature record the prediction pipeline builds from `dfBlock`. -/
def recBlock : Record :=
  [("primary_type", .str "THEFT"), ("block", .str "001XX N STATE ST"),
   ("hour", .int 10), ("day_of_week", .int 0), ("month", .int 1),
   ("quarter", .int 1), ("is_night", .int 0), ("is_weekend", .int 0),
   ("location_group", .str "Street/Public")]

/-- C5 counterexample: on an input carrying the extra column `block`, the
feature record fed to the vectorizer contains the feature name "block", which
is not in the fixed `FEATURE_COLS` set — so the feature set passed to the
vectorizer is NOT the same fixed set regardless of which extra columns the
input carries. -/
theorem feature_set_includes_extra_columns :
    prediction_features [("STREET", "Street/Public")] dfBlock = .ok [recBlock] ∧
    "block" ∈ recBlock.map Prod.fst ∧ "block" ∉ FEATURE_COLS :=
  ⟨by rfl, by decide, by decide⟩

/-- Witness for `prediction_feature_set` at the concrete garage record. -/
theorem prediction_feature_set_witness :
    (∃ rec, prediction_features mStreet dfGarage = .ok [rec] ∧
      rec.map Prod.fst =
        ((dfGarage.colNames.filter
            (fun n => n ∉ (["date", "location_description"] : List String)) ++
          derivedCols).filter
          (fun n => n ∉ (["arrest", "id"] : List String)))) ∧
    (∀ (r1 r2 : Record), List.Perm r1 r2 → (r1.map Prod.fst).Nodup →
      ∀ k, List.lookup k r1 = List.lookup k r2) :=
  prediction_feature_set dfGarage mStreet ⟨2024, 2, 29, 3⟩ (.str "GARAGE")
    (by decide) (by decide) (by decide) (by decide) (by decide)

/-- Witness for `process_predictions_consistency` on a concrete one-row
batch. -/
theorem process_predictions_consistency_witness :
    res1.predictions.length = res1.summary.total_cases ∧
    res1.probabilities.length = res1.summary.total_cases ∧
    res1.risk_levels.length = res1.summary.total_cases ∧
    res1.summary.high_risk_cases =
      (res1.risk_levels.filter (fun s => s = "High")).length ∧
    res1.summary.predicted_arrests = res1.predictions.sum ∧
    res1.summary.predicted_arrests ≤ res1.summary.total_cases :=
  process_predictions_consistency model1 [] dfSunday "k" res1 (by rfl)
    (fun _ => Nat.le_refl 1)

end ChicagoCrimes
